import Mathlib

/-!
Shallow embedding of the mini payment gateway (TypeScript sources under
`src/`): fraud risk scoring (`fraudDetection.ts`), provider routing and the
charge pipeline (`paymentService.ts`), and the explanation service with its
cache and deterministic fallback (`llmService.ts`).

Numeric modelling note: the TypeScript code computes risk scores with IEEE
doubles.  Every reachable score is a sequential sum drawn from the
contributions 0.3, 0.4, 0.2, 0.3 capped at 1.0, and for each reachable sum
the double result compares against the thresholds 0.3, 0.5, 0.7, 1.0 and
formats under `toFixed(2)` exactly as the corresponding rational does
(e.g. the doubles of 0.3 and 0.2 add to exactly 0.5, and 0.3 + 0.4 rounds
within 2^-53 of 0.7, on the same side of every threshold).  Scores are
therefore embedded as exact rationals.
-/

namespace Gateway

/-- Character-wise lower-casing, modelling JavaScript `toLowerCase` on the
ASCII strings that occur in emails. -/
def lowerStr (s : String) : String :=
  ⟨s.data.map Char.toLower⟩

/-- Substring test on strings, modelling JavaScript `String.prototype.includes`:
`strContains s pat` is `true` iff `pat` occurs contiguously in `s`. -/
def strContains (s pat : String) : Bool :=
  (List.range (s.toList.length + 1)).any (fun i => pat.toList.isPrefixOf (s.toList.drop i))

/-- `types.ts`: the validated charge request.  `amount` is a positive integer
number of minor currency units, embedded as `Nat`. -/
structure ChargeRequest where
  amount : Nat
  currency : String
  source : String
  email : String
deriving Repr, DecidableEq

/-- `fraudDetection.ts`: the fixed denylist of suspicious substrings. -/
def suspiciousDomains : List String :=
  [".ru", "test.com", ".tk", ".ml", ".ga"]

/-- The suspicious-domain condition of `calculateRiskScore`
(`suspiciousDomains.some (domain => email.includes(domain))` on the
lower-cased email). -/
def suspiciousDomainHit (email : String) : Bool :=
  suspiciousDomains.any (fun d => strContains (lowerStr email) d)

/-- The temp/fake condition of `calculateRiskScore`
(`email.includes('temp') || email.includes('fake')` on the lower-cased
email). -/
def tempFakeHit (email : String) : Bool :=
  strContains (lowerStr email) "temp" || strContains (lowerStr email) "fake"

/-- `FraudDetector.calculateRiskScore`: sequential accumulation of the four
risk contributions in source order, then `Math.min(score, 1.0)`. -/
def calculateRiskScore (request : ChargeRequest) : ℚ :=
  let score : ℚ := 0
  let score := if 50000 < request.amount then score + 3/10 else score
  let score := if suspiciousDomainHit request.email then score + 2/5 else score
  let score := if 100000 < request.amount then score + 1/5 else score
  let score := if tempFakeHit request.email then score + 3/10 else score
  min score 1

/-- `FraudDetector.shouldBlock`: `riskScore >= 0.5`. -/
def shouldBlock (riskScore : ℚ) : Bool :=
  decide ((1:ℚ)/2 ≤ riskScore)

/-- `types.ts`: the two simulated downstream providers. -/
inductive PaymentProvider where
  | stripe
  | paypal
deriving Repr, DecidableEq

/-- JavaScript string interpolation of a `PaymentProvider` value. -/
def providerName : PaymentProvider → String
  | .stripe => "stripe"
  | .paypal => "paypal"

/-- JavaScript string interpolation of a nullable provider
(interpolating `null` yields the string `null`). -/
def providerStr : Option PaymentProvider → String
  | some p => providerName p
  | none => "null"

/-- `PaymentService.selectProvider`: `riskScore < 0.3 ? 'stripe' : 'paypal'`. -/
def selectProvider (riskScore : ℚ) : PaymentProvider :=
  if riskScore < 3/10 then .stripe else .paypal

/-- Zero-padding to two digits, for the fractional part of a 2-decimal
rendering (`n` below 100). -/
def pad2 (n : Nat) : String :=
  (if n < 10 then "0" else "") ++ toString n

/-- JavaScript `Number.prototype.toFixed(2)` for the nonnegative values that
occur in this program: the nearest multiple of 1/100 (ties away from zero),
printed with exactly two decimals. -/
def toFixed2 (q : ℚ) : String :=
  let n : Nat := (⌊q * 100 + 1/2⌋).toNat
  toString (n / 100) ++ "." ++ pad2 (n % 100)

/-- `LLMService.generateFallbackExplanation`: the deterministic rule-based
explanation template. -/
def generateFallbackExplanation (request : ChargeRequest) (riskScore : ℚ)
    (provider : Option PaymentProvider) (isBlocked : Bool) : String :=
  let amount : ℚ := (request.amount : ℚ) / 100
  let riskLevel : String :=
    if riskScore < 3/10 then "low" else if riskScore < 7/10 then "moderate" else "high"
  if isBlocked then
    "Payment blocked due to " ++ riskLevel ++ " risk score (" ++ toFixed2 riskScore ++
      ") from suspicious patterns."
  else
    "Payment routed to " ++ providerStr provider ++ " with " ++ riskLevel ++
      " risk score (" ++ toFixed2 riskScore ++ ") for $" ++ toFixed2 amount ++ " transaction."

/-- The explanation cache key: `LLMService.generateExplanation` builds the
string key from the amount, the email, the risk score and the blocked flag
(the provider is absent); on the values that occur, that string determines and
is determined by this tuple. -/
abbrev CacheKey := Nat × String × ℚ × Bool

/-- The in-memory explanation cache (`Map<string, string>` in the source),
embedded as an association list over the decoded key. -/
abbrev Cache := List (CacheKey × String)

/-- `Map.has` / `Map.get` combined: the cached value for a key, if present. -/
def cacheLookup (cache : Cache) (key : CacheKey) : Option String :=
  (cache.find? (fun e => decide (e.1 = key))).map (fun e => e.2)

/-- `Map.set` on a key that is not yet present. -/
def cacheInsert (cache : Cache) (key : CacheKey) (value : String) : Cache :=
  (key, value) :: cache

/-- The outcome of one attempted external (OpenAI) completion call:
a reply whose optional content models `response.choices[0]?.message?.content`
(where `none` and the empty string are both falsy), or a thrown
error/timeout. -/
inductive LLMOutcome where
  | reply (content : Option String)
  | failure
deriving Repr, DecidableEq

/-- The observable result of `LLMService.generateExplanation`: the returned
string, the cache afterwards, and whether the external call was performed. -/
structure LLMResult where
  text : String
  cache : Cache
  externalCallMade : Bool
deriving Repr, DecidableEq

/-- `LLMService.generateExplanation`.  `apiKeyAvailable` models the
`OPENAI_API_KEY` configuration check (false when the key is unset or the
`demo-key` placeholder); `outcome` is the environment's answer to the external
call, consulted only when the call is actually made.  Cache hits return the
cached string; on a miss the no-key path and the reply path store the computed
explanation under the key, while the catch path (a thrown error or timeout)
returns the fallback without touching the cache. -/
def generateExplanation (apiKeyAvailable : Bool) (outcome : LLMOutcome)
    (cache : Cache) (request : ChargeRequest) (riskScore : ℚ)
    (provider : Option PaymentProvider) (isBlocked : Bool) : LLMResult :=
  let key : CacheKey := (request.amount, request.email, riskScore, isBlocked)
  match cacheLookup cache key with
  | some cached => ⟨cached, cache, false⟩
  | none =>
    if !apiKeyAvailable then
      let explanation := generateFallbackExplanation request riskScore provider isBlocked
      ⟨explanation, cacheInsert cache key explanation, false⟩
    else
      match outcome with
      | .reply content =>
        let explanation :=
          match content with
          | some c => if c = "" then generateFallbackExplanation request riskScore provider isBlocked else c
          | none => generateFallbackExplanation request riskScore provider isBlocked
        ⟨explanation, cacheInsert cache key explanation, true⟩
      | .failure =>
        ⟨generateFallbackExplanation request riskScore provider isBlocked, cache, true⟩

/-- `types.ts`: the charge response returned to the caller. -/
structure ChargeResponse where
  transactionId : String
  provider : String
  status : String
  riskScore : ℚ
  explanation : String
deriving Repr, DecidableEq

/-- `types.ts`: one ledger entry.  The `Date` timestamp is embedded as an
abstract `Nat` supplied by the environment. -/
structure Transaction where
  id : String
  timestamp : Nat
  request : ChargeRequest
  response : ChargeResponse
deriving Repr, DecidableEq

/-- The mutable state of a `PaymentService` instance: the transaction list and
the `LLMService` cache it owns. -/
structure PaymentServiceState where
  transactions : List Transaction
  llmCache : Cache
deriving Repr, DecidableEq

/-- The per-call environment inputs of `processCharge`: the fresh UUID, the
current time, and the external LLM configuration and outcome. -/
structure ProcessEnv where
  transactionId : String
  timestamp : Nat
  apiKeyAvailable : Bool
  llmOutcome : LLMOutcome
deriving Repr, DecidableEq

/-- `PaymentService.processCharge`: score, decide block, route if not
blocked, generate the explanation, build the response, append the
transaction to the ledger, and return the response with the new state. -/
def processCharge (st : PaymentServiceState) (env : ProcessEnv)
    (request : ChargeRequest) : ChargeResponse × PaymentServiceState :=
  let riskScore := calculateRiskScore request
  let isBlocked := shouldBlock riskScore
  let provider : Option PaymentProvider :=
    if isBlocked then none else some (selectProvider riskScore)
  let status := if isBlocked then "blocked" else "success"
  let llmResult := generateExplanation env.apiKeyAvailable env.llmOutcome
    st.llmCache request riskScore provider isBlocked
  let response : ChargeResponse :=
    { transactionId := env.transactionId
      provider := match provider with | some p => providerName p | none => "none"
      status := status
      riskScore := riskScore
      explanation := llmResult.text }
  let txn : Transaction :=
    { id := env.transactionId, timestamp := env.timestamp
      request := request, response := response }
  (response, { transactions := st.transactions ++ [txn], llmCache := llmResult.cache })

/-- `PaymentService.getTransactions`: the ledger snapshot (`[...transactions]`);
in this pure embedding the returned list is by construction an independent
value. -/
def getTransactions (st : PaymentServiceState) : List Transaction :=
  st.transactions

/-- Repeated invocation of `processCharge`: threading the state through a
sequence of calls, each with its own environment and request. -/
def run (st : PaymentServiceState) : List (ProcessEnv × ChargeRequest) → PaymentServiceState
  | [] => st
  | (env, req) :: rest => run (processCharge st env req).2 rest

/-- The transactions a sequence of `processCharge` calls generates, oldest
first, each built from its own call's identifier, timestamp, request and
response. -/
def runTrace (st : PaymentServiceState) : List (ProcessEnv × ChargeRequest) → List Transaction
  | [] => []
  | (env, req) :: rest =>
    let out := processCharge st env req
    ⟨env.transactionId, env.timestamp, req, out.1⟩ :: runTrace out.2 rest

/-- The risk-level label of the deterministic fallback, stated as in the
spec formula. -/
def riskLevelSpec (score : ℚ) : String :=
  if score < 3/10 then "low" else if score < 7/10 then "moderate" else "high"

/-- The exact major-units rendering of an amount of `cents`: the integer
part, a dot, and the two-digit remainder. -/
def majorUnits (cents : Nat) : String :=
  toString (cents / 100) ++ "." ++ pad2 (cents % 100)

/-- The spec's reference formula for the deterministic fallback explanation,
assembled from its description: the level label, the 2-decimal score, and for
routed payments the provider and the amount in major units. -/
def specFallbackExplanation (amount : Nat) (score : ℚ)
    (provider : Option PaymentProvider) (blocked : Bool) : String :=
  if blocked then
    "Payment blocked due to " ++ riskLevelSpec score ++ " risk score (" ++
      toFixed2 score ++ ") from suspicious patterns."
  else
    "Payment routed to " ++ providerStr provider ++ " with " ++ riskLevelSpec score ++
      " risk score (" ++ toFixed2 score ++ ") for $" ++ majorUnits amount ++ " transaction."

/-- The claim's notion of the domain portion of an email: the characters
after the '@'. -/
def domainPortion (email : String) : String :=
  ⟨(email.data.dropWhile (fun c => c != '@')).drop 1⟩

/-! ### Helper lemmas -/

/-- `strContains` agrees with contiguous-sublist containment. -/
theorem strContains_spec (s pat : String) :
    strContains s pat = true ↔ pat.toList <:+: s.toList := by
  unfold strContains
  rw [List.any_eq_true]
  constructor
  · rintro ⟨i, -, hpre⟩
    rw [ List.isPrefixOf_iff_prefix] at hpre
    exact List.infix_iff_prefix_suffix.mpr ⟨s.toList.drop i, hpre, List.drop_suffix i s.toList⟩
  · intro hinf
    obtain ⟨t, hpre, hsuf⟩ := List.infix_iff_prefix_suffix.mp hinf
    obtain ⟨pre, hpreeq⟩ := hsuf
    refine ⟨pre.length, ?_, ?_⟩
    · rw [List.mem_range]
      have := congrArg List.length hpreeq
      simp only [List.length_append] at this
      omega
    · rw [ List.isPrefixOf_iff_prefix]
      have : s.toList.drop pre.length = t := by
        rw [← hpreeq, List.drop_left]
      rw [this]
      exact hpre

/-- The risk score is either zero or at least the smallest contribution. -/
theorem riskScore_zero_or_ge (request : ChargeRequest) :
    calculateRiskScore request = 0 ∨ 3/10 ≤ calculateRiskScore request := by
  unfold calculateRiskScore
  split_ifs <;> first | (exfalso; omega) | norm_num [min_def]

/-- Rounding a whole number of cents divided by 100 back to hundredths is
exact. -/
theorem floor_cents (a : Nat) : (⌊((a : ℚ) / 100) * 100 + 1/2⌋).toNat = a := by
  have h1 : ((a : ℚ) / 100) * 100 = (a : ℚ) := by
    field_simp
  rw [h1, Int.floor_nat_add]
  norm_num

/-! ### Claims -/

/-- Claim C1: for every charge request, `calculateRiskScore` equals the
reference definition (the sum of the four triggered contributions, capped at
1), and the score always lies in the interval from 0 to 1. -/
theorem calculateRiskScore_reference_and_bounds (request : ChargeRequest) :
    calculateRiskScore request =
      min ((if 50000 < request.amount then (3:ℚ)/10 else 0) +
           (if 100000 < request.amount then (1:ℚ)/5 else 0) +
           (if suspiciousDomainHit request.email then (2:ℚ)/5 else 0) +
           (if tempFakeHit request.email then (3:ℚ)/10 else 0)) 1 ∧
    0 ≤ calculateRiskScore request ∧ calculateRiskScore request ≤ 1 := by
  unfold calculateRiskScore
  split_ifs <;> norm_num [min_def]

/-- Claim C2: `shouldBlock` holds exactly on scores of at least 0.5, with the
boundary inclusive: 0.5 blocks and 0.49999 does not. -/
theorem shouldBlock_threshold :
    (∀ riskScore : ℚ, shouldBlock riskScore = true ↔ 1/2 ≤ riskScore) ∧
    shouldBlock (1/2) = true ∧ shouldBlock (49999/100000) = false := by
  refine ⟨fun riskScore => ?_, ?_, ?_⟩
  · simp [shouldBlock]
  · with_unfolding_all decide
  · with_unfolding_all decide

/-- Claim C3: the response of every processed request routes by score —
scores of at least 0.5 yield provider `none` and status `blocked`, scores
below 0.3 yield `stripe` with status `success`, scores in between yield
`paypal` with status `success`; and the status is `blocked` exactly when the
provider is `none`. -/
theorem processCharge_routing_invariant (st : PaymentServiceState) (env : ProcessEnv)
    (request : ChargeRequest) :
    ((processCharge st env request).1.provider =
      if 1/2 ≤ calculateRiskScore request then "none"
      else if calculateRiskScore request < 3/10 then "stripe" else "paypal") ∧
    ((processCharge st env request).1.status =
      if 1/2 ≤ calculateRiskScore request then "blocked" else "success") ∧
    ((processCharge st env request).1.status = "blocked" ↔
      (processCharge st env request).1.provider = "none") := by
  simp only [processCharge, shouldBlock, selectProvider, decide_eq_true_eq]
  split_ifs <;> simp [providerName]

/-- Claim C9: the concrete request with amount 150000 and email
`user@gmail.com` scores exactly 0.5 (the 0.3 and 0.2 amount contributions),
and its response is blocked with provider `none`. -/
theorem scenario_150000_blocked (st : PaymentServiceState) (env : ProcessEnv) :
    calculateRiskScore ⟨150000, "USD", "tok_test", "user@gmail.com"⟩ = 1/2 ∧
    (processCharge st env ⟨150000, "USD", "tok_test", "user@gmail.com"⟩).1.status = "blocked" ∧
    (processCharge st env ⟨150000, "USD", "tok_test", "user@gmail.com"⟩).1.provider = "none" ∧
    (processCharge st env ⟨150000, "USD", "tok_test", "user@gmail.com"⟩).1.riskScore = 1/2 := by
  refine ⟨by with_unfolding_all decide, ?_, ?_, ?_⟩ <;> with_unfolding_all rfl

/-- Claim C10: a charge is routed to `stripe` exactly when its risk score is
zero, which happens exactly when none of the risk signals triggered (the only
lone contributions are 0.3 and 0.4, and 0.2 only occurs together with
0.3, so no reachable score lies strictly between 0 and 0.3). -/
theorem stripe_implies_zero_score (st : PaymentServiceState) (env : ProcessEnv)
    (request : ChargeRequest) :
    ((processCharge st env request).1.provider = "stripe" ↔
      calculateRiskScore request = 0) ∧
    (calculateRiskScore request = 0 ↔
      request.amount ≤ 50000 ∧ suspiciousDomainHit request.email = false ∧
        tempFakeHit request.email = false) := by
  constructor
  · simp only [processCharge, shouldBlock, selectProvider, decide_eq_true_eq]
    split_ifs with hb hr
    · have h0 : ¬ calculateRiskScore request = 0 := by
        intro h0
        rw [h0] at hb
        norm_num at hb
      simp [providerName, h0]
    · constructor
      · intro _
        rcases riskScore_zero_or_ge request with h | h
        · exact h
        · exact absurd hr (not_lt.mpr h)
      · intro _
        simp [providerName]
    · have h0 : ¬ calculateRiskScore request = 0 := by
        intro h0
        rw [h0] at hr
        norm_num at hr
      simp [providerName, h0]
  · unfold calculateRiskScore
    split_ifs <;>
      first
        | (exfalso; omega)
        | (rw [min_def] <;> norm_num <;> (try simp_all) <;> (try omega))

/-- Claim C6: after a sequence of `processCharge` calls the ledger snapshot
holds exactly one transaction per call, appended in call order after the
transactions already present, each carrying its own call's identifier,
timestamp, request and response; snapshots are plain values, so a snapshot
taken before further calls is never mutated by them. -/
theorem ledger_snapshot_spec (st : PaymentServiceState)
    (inputs : List (ProcessEnv × ChargeRequest)) :
    getTransactions (run st inputs) = getTransactions st ++ runTrace st inputs ∧
    (runTrace st inputs).length = inputs.length ∧
    (runTrace st inputs).map Transaction.request = inputs.map Prod.snd ∧
    (runTrace st inputs).map Transaction.id = inputs.map (fun p => p.1.transactionId) := by
  induction inputs generalizing st with
  | nil => simp [run, runTrace, getTransactions]
  | cons hd tl ih =>
    obtain ⟨env, req⟩ := hd
    obtain ⟨h1, h2, h3, h4⟩ := ih (processCharge st env req).2
    refine ⟨?_, by simp [runTrace, h2], by simp [runTrace, h3], by simp [runTrace, h4]⟩
    show getTransactions (run (processCharge st env req).2 tl) = _
    rw [h1]
    have happ : getTransactions (processCharge st env req).2 =
        getTransactions st ++
          [⟨env.transactionId, env.timestamp, req, (processCharge st env req).1⟩] := rfl
    rw [happ, List.append_assoc]
    rfl

/-- Claim C7: the deterministic fallback explanation equals the spec's
reference formula, with the amount rendered exactly as major currency units
to two decimals. -/
theorem fallback_matches_spec_formula (request : ChargeRequest) (riskScore : ℚ)
    (provider : Option PaymentProvider) (isBlocked : Bool) :
    generateFallbackExplanation request riskScore provider isBlocked =
      specFallbackExplanation request.amount riskScore provider isBlocked ∧
    toFixed2 ((request.amount : ℚ) / 100) = majorUnits request.amount := by
  have hfix : toFixed2 ((request.amount : ℚ) / 100) = majorUnits request.amount := by
    unfold toFixed2 majorUnits
    rw [floor_cents]
  refine ⟨?_, hfix⟩
  simp only [generateFallbackExplanation, specFallbackExplanation, riskLevelSpec, hfix]

/-- Looking up a key directly after inserting it yields the inserted
value. -/
theorem cacheLookup_insert_self (cache : Cache) (key : CacheKey) (value : String) :
    cacheLookup (cacheInsert cache key value) key = some value := by
  unfold cacheLookup cacheInsert
  rw [List.find?_cons_of_pos _ (by simp)]
  rfl

/-- A call whose key is already cached returns the cached string unchanged
and makes no external call. -/
theorem generateExplanation_hit (apiKeyAvailable : Bool) (outcome : LLMOutcome)
    (cache : Cache) (request : ChargeRequest) (riskScore : ℚ)
    (provider : Option PaymentProvider) (isBlocked : Bool) (cached : String)
    (h : cacheLookup cache (request.amount, request.email, riskScore, isBlocked) = some cached) :
    generateExplanation apiKeyAvailable outcome cache request riskScore provider isBlocked =
      ⟨cached, cache, false⟩ := by
  simp [generateExplanation, h]

/-- Whenever `generateExplanation` does not take the thrown-error path on a
cache miss, its cache afterwards holds the returned text under the call's
key. -/
theorem generateExplanation_result_cached (apiKeyAvailable : Bool) (outcome : LLMOutcome)
    (cache : Cache) (request : ChargeRequest) (riskScore : ℚ)
    (provider : Option PaymentProvider) (isBlocked : Bool)
    (h : ¬(apiKeyAvailable = true ∧ outcome = .failure ∧
      cacheLookup cache (request.amount, request.email, riskScore, isBlocked) = none)) :
    cacheLookup
        (generateExplanation apiKeyAvailable outcome cache request riskScore provider isBlocked).cache
        (request.amount, request.email, riskScore, isBlocked) =
      some (generateExplanation apiKeyAvailable outcome cache request riskScore provider
        isBlocked).text := by
  cases hcase : cacheLookup cache (request.amount, request.email, riskScore, isBlocked) with
  | some cached => simp [generateExplanation, hcase]
  | none =>
    cases apiKeyAvailable with
    | false => simp [generateExplanation, hcase, cacheLookup_insert_self]
    | true =>
      cases outcome with
      | reply content =>
        cases content with
        | none => simp [generateExplanation, hcase, cacheLookup_insert_self]
        | some c =>
          by_cases hc : c = "" <;>
            simp [generateExplanation, hcase, hc, cacheLookup_insert_self]
      | failure => exact absurd ⟨rfl, rfl, hcase⟩ h

/-- Claim C4 counterexample: with external generation configured, a thrown
error makes `generateExplanation` return the deterministic fallback but leave
the cache untouched — the fallback is not stored, contrary to the claim. -/
theorem explanation_error_path_not_cached_counterexample :
    (generateExplanation true .failure [] ⟨1000, "USD", "tok_test", "user@example.com"⟩ (3/20)
        (some .stripe) false).text =
      generateFallbackExplanation ⟨1000, "USD", "tok_test", "user@example.com"⟩ (3/20)
        (some .stripe) false ∧
    (generateExplanation true .failure [] ⟨1000, "USD", "tok_test", "user@example.com"⟩ (3/20)
        (some .stripe) false).cache = [] :=
  ⟨rfl, rfl⟩

/-- Claim C4 (amended): on a cache miss with external generation configured,
every failure of the external call yields the deterministic fallback string
and never propagates; an empty reply (absent or empty content) also stores
the fallback in the cache, but a thrown error/timeout returns it with the
cache unchanged. -/
theorem explanation_failure_fallback (cache : Cache) (request : ChargeRequest)
    (riskScore : ℚ) (provider : Option PaymentProvider) (isBlocked : Bool)
    (hmiss : cacheLookup cache (request.amount, request.email, riskScore, isBlocked) = none) :
    generateExplanation true .failure cache request riskScore provider isBlocked =
      ⟨generateFallbackExplanation request riskScore provider isBlocked, cache, true⟩ ∧
    generateExplanation true (.reply none) cache request riskScore provider isBlocked =
      ⟨generateFallbackExplanation request riskScore provider isBlocked,
        cacheInsert cache (request.amount, request.email, riskScore, isBlocked)
          (generateFallbackExplanation request riskScore provider isBlocked), true⟩ ∧
    generateExplanation true (.reply (some "")) cache request riskScore provider isBlocked =
      ⟨generateFallbackExplanation request riskScore provider isBlocked,
        cacheInsert cache (request.amount, request.email, riskScore, isBlocked)
          (generateFallbackExplanation request riskScore provider isBlocked), true⟩ := by
  refine ⟨?_, ?_, ?_⟩ <;> simp [generateExplanation, hmiss]

/-- Witness for the amended claim C4 at a concrete request and empty
cache. -/
theorem explanation_failure_fallback_witness :
    cacheLookup [] ((1000 : Nat), "user@example.com", (3:ℚ)/20, false) = none ∧
    generateExplanation true .failure [] ⟨1000, "USD", "tok_test", "user@example.com"⟩ (3/20)
        (some .stripe) false =
      ⟨generateFallbackExplanation ⟨1000, "USD", "tok_test", "user@example.com"⟩ (3/20)
        (some .stripe) false, [], true⟩ :=
  ⟨rfl, (explanation_failure_fallback [] ⟨1000, "USD", "tok_test", "user@example.com"⟩ (3/20)
    (some .stripe) false rfl).1⟩

/-- Claim C5 counterexample: when the first call takes the thrown-error path
(so nothing is cached), a second call with the identical
(amount, email, riskScore, blocked) tuple does perform an external call and
can return a different string, contrary to the claim's universal reading. -/
theorem second_call_external_call_counterexample :
    (generateExplanation true (.reply (some "AI text"))
        (generateExplanation true .failure [] ⟨1000, "USD", "tok_test", "user@example.com"⟩
          (3/20) (some .stripe) false).cache
        ⟨1000, "USD", "tok_test", "user@example.com"⟩ (3/20) (some .paypal)
        false).externalCallMade = true ∧
    (generateExplanation true (.reply (some "AI text"))
        (generateExplanation true .failure [] ⟨1000, "USD", "tok_test", "user@example.com"⟩
          (3/20) (some .stripe) false).cache
        ⟨1000, "USD", "tok_test", "user@example.com"⟩ (3/20) (some .paypal)
        false).text ≠
      (generateExplanation true .failure [] ⟨1000, "USD", "tok_test", "user@example.com"⟩
        (3/20) (some .stripe) false).text := by
  constructor
  · rfl
  · with_unfolding_all decide

/-- Claim C5 (amended): the cache is keyed exactly by the tuple
(amount, email, riskScore, blocked) and not by provider: provided the first
call stored an entry (which it does except on the thrown-error path over a
miss), a second call with the identical tuple returns the first call's
byte-identical string and performs no external call, even if the provider
argument, the configuration and the external outcome differ between the two
calls. -/
theorem cache_key_ignores_provider (apiKey1 apiKey2 : Bool)
    (outcome1 outcome2 : LLMOutcome) (cache : Cache) (request : ChargeRequest)
    (riskScore : ℚ) (p1 p2 : Option PaymentProvider) (isBlocked : Bool)
    (hcached : ¬(apiKey1 = true ∧ outcome1 = .failure ∧
      cacheLookup cache (request.amount, request.email, riskScore, isBlocked) = none)) :
    (generateExplanation apiKey2 outcome2
        (generateExplanation apiKey1 outcome1 cache request riskScore p1 isBlocked).cache
        request riskScore p2 isBlocked).text =
      (generateExplanation apiKey1 outcome1 cache request riskScore p1 isBlocked).text ∧
    (generateExplanation apiKey2 outcome2
        (generateExplanation apiKey1 outcome1 cache request riskScore p1 isBlocked).cache
        request riskScore p2 isBlocked).externalCallMade = false := by
  have hhit := generateExplanation_result_cached apiKey1 outcome1 cache request riskScore p1
    isBlocked hcached
  rw [generateExplanation_hit apiKey2 outcome2 _ request riskScore p2 isBlocked _ hhit]
  exact ⟨rfl, rfl⟩

/-- Witness for the amended claim C5: an unconfigured first call followed by
a configured second call with a different provider argument. -/
theorem cache_key_ignores_provider_witness :
    (¬((false : Bool) = true ∧ LLMOutcome.failure = LLMOutcome.failure ∧
      cacheLookup [] ((1000 : Nat), "user@example.com", (3:ℚ)/20, false) = none)) ∧
    ((generateExplanation true (.reply (some "AI text"))
        (generateExplanation false .failure [] ⟨1000, "USD", "tok_test", "user@example.com"⟩
          (3/20) (some .stripe) false).cache
        ⟨1000, "USD", "tok_test", "user@example.com"⟩ (3/20) (some .paypal) false).text =
      (generateExplanation false .failure [] ⟨1000, "USD", "tok_test", "user@example.com"⟩
        (3/20) (some .stripe) false).text ∧
    (generateExplanation true (.reply (some "AI text"))
        (generateExplanation false .failure [] ⟨1000, "USD", "tok_test", "user@example.com"⟩
          (3/20) (some .stripe) false).cache
        ⟨1000, "USD", "tok_test", "user@example.com"⟩ (3/20) (some .paypal)
        false).externalCallMade = false) :=
  ⟨by simp, cache_key_ignores_provider false true .failure (.reply (some "AI text")) []
    ⟨1000, "USD", "tok_test", "user@example.com"⟩ (3/20) (some .stripe) (some .paypal) false
    (by simp)⟩

/-- Claim C8 counterexample: for `x.ru@gmail.com` the denylist substring
`.ru` occurs only in the local part — the domain portion `gmail.com` contains
no denylist entry — yet the +0.4 contribution triggers (the score is 0.4). -/
theorem suspicious_domain_localpart_counterexample :
    calculateRiskScore ⟨1000, "USD", "tok_test", "x.ru@gmail.com"⟩ = 2/5 ∧
    domainPortion "x.ru@gmail.com" = "gmail.com" ∧
    suspiciousDomains.any
      (fun d => strContains (lowerStr (domainPortion "x.ru@gmail.com")) d) = false := by
  refine ⟨by with_unfolding_all decide, by decide, by decide⟩

/-- Claim C8 (amended): the +0.4 contribution is triggered exactly when the
lower-cased full email contains one of the denylist substrings — occurrences
only in the local part also trigger it. -/
theorem suspicious_domain_substring_of_full_email :
    (∀ email, suspiciousDomainHit email = true ↔
      ∃ d ∈ suspiciousDomains, d.toList <:+: (lowerStr email).toList) ∧
    suspiciousDomainHit "x.ru@gmail.com" = true := by
  refine ⟨fun email => ?_, by decide⟩
  unfold suspiciousDomainHit
  rw [List.any_eq_true]
  constructor
  · rintro ⟨d, hd, hc⟩
    exact ⟨d, hd, (strContains_spec _ _).mp hc⟩
  · rintro ⟨d, hd, hinf⟩
    exact ⟨d, hd, (strContains_spec _ _).mpr hinf⟩

end Gateway
